import Mathlib

/-!
Shallow embedding of the dynamic tool-adaptation layer in `src/main.py`
(LangChain / Cisco-Support MCP bridge), together with theorems checking the
specification's claims about it: session acquisition, schema translation,
tool adaptation, and catalog building.
-/

namespace CiscoMCP

/-! ## JSON values

Model of the JSON values produced by `model_dump()` on MCP content items and
consumed by `json.dumps`.  Covers the printable-ASCII fragment of Python's
serialisation (sufficient for the content data handled by this layer). -/

inductive Json where
  | null : Json
  | bool : Bool → Json
  | num : Int → Json
  | str : String → Json
  | arr : List Json → Json
  | obj : List (String × Json) → Json

/-- Escaping performed by `json.dumps` on string values, for the characters
this model covers. -/
def jsonEscape (s : String) : String :=
  s.foldl (fun acc c =>
    acc ++ (if c = '"' then "\\\""
      else if c = '\\' then "\\\\"
      else if c = '\n' then "\\n"
      else if c = '\t' then "\\t"
      else if c = '\r' then "\\r"
      else String.singleton c)) ""

def indentStr (n : Nat) : String :=
  String.mk (List.replicate n ' ')

mutual

/-- Model of Python `json.dumps(v, indent=2)`: renders one value assuming the
current line is indented by `lvl` spaces. -/
def dumpsJson (lvl : Nat) : Json → String
  | Json.null => "null"
  | Json.bool b => if b then "true" else "false"
  | Json.num i => toString i
  | Json.str s => "\"" ++ jsonEscape s ++ "\""
  | Json.arr [] => "[]"
  | Json.arr (x :: xs) =>
      "[\n" ++ dumpsArrItems (lvl + 2) (x :: xs) ++ "\n" ++ indentStr lvl ++ "]"
  | Json.obj [] => "\x7b\x7d"
  | Json.obj (kv :: kvs) =>
      "\x7b\n" ++ dumpsObjItems (lvl + 2) (kv :: kvs) ++ "\n" ++ indentStr lvl ++ "\x7d"

/-- Array elements, one per line, comma separated, each indented by `lvl`. -/
def dumpsArrItems (lvl : Nat) : List Json → String
  | [] => ""
  | [x] => indentStr lvl ++ dumpsJson lvl x
  | x :: y :: xs =>
      indentStr lvl ++ dumpsJson lvl x ++ ",\n" ++ dumpsArrItems lvl (y :: xs)

/-- Object entries, one per line, comma separated, each indented by `lvl`. -/
def dumpsObjItems (lvl : Nat) : List (String × Json) → String
  | [] => ""
  | [kv] => indentStr lvl ++ "\"" ++ jsonEscape kv.1 ++ "\": " ++ dumpsJson lvl kv.2
  | kv :: kv2 :: kvs =>
      indentStr lvl ++ "\"" ++ jsonEscape kv.1 ++ "\": " ++ dumpsJson lvl kv.2
        ++ ",\n" ++ dumpsObjItems lvl (kv2 :: kvs)

end

/-- `json.dumps(items, indent=2)` applied to a top-level list, as on line 127
of `main.py`. -/
def json_dumps_indent2 (items : List Json) : String :=
  dumpsJson 0 (Json.arr items)

/-! ## Schema translation (`create_pydantic_model_from_schema`) -/

/-- One entry of a schema's `properties` map: the `type` and `description`
keys, each possibly absent (`field_info.get` in the source). -/
structure PropertyInfo where
  type : Option String
  description : Option String
deriving DecidableEq

/-- A JSON-schema dictionary as the source reads it: the `properties` key (an
ordered field-name/property-info map) and the `required` key (a list of field
names), each possibly absent. -/
structure JsonSchema where
  properties : Option (List (String × PropertyInfo))
  required : Option (List String)
deriving DecidableEq

/-- The primitive kind a declared property is translated to (the Python type
assigned to `field_type`). -/
inductive FieldType where
  | str
  | int
  | float
  | bool
  | listAny
  | dictAny
deriving DecidableEq

/-- How the pydantic `Field` of one property was created: with no default
(a required field) or with `default=None` (an optional field). -/
inductive FieldBinding where
  | requiredNoDefault
  | defaultNone
deriving DecidableEq

/-- One field of the generated pydantic model. -/
structure FieldDef where
  type : FieldType
  description : String
  binding : FieldBinding
deriving DecidableEq

/-- The pydantic model produced by `create_model(model_name, **fields)`:
a name and an ordered field map. -/
structure PydanticModel where
  name : String
  fields : List (String × FieldDef)
deriving DecidableEq

/-- The `if`/`elif` chain on lines 76-85 of `main.py` determining `field_type`
from the property's declared `type` (default `str`). -/
def field_type_of (t : Option String) : FieldType :=
  if t = some "integer" then FieldType.int
  else if t = some "number" then FieldType.float
  else if t = some "boolean" then FieldType.bool
  else if t = some "array" then FieldType.listAny
  else if t = some "object" then FieldType.dictAny
  else FieldType.str

/-- Embedding of `create_pydantic_model_from_schema(schema, model_name)`.
The argument is `Option JsonSchema`: `none` models a `None`/empty (falsy)
schema dictionary.  The guard `if not schema or "properties" not in schema`
returns the empty model exactly when the schema is falsy or lacks a
`properties` key. -/
def create_pydantic_model_from_schema (schema : Option JsonSchema)
    (model_name : String) : PydanticModel :=
  match schema with
  | none => { name := model_name, fields := [] }
  | some s =>
    match s.properties with
    | none => { name := model_name, fields := [] }
    | some properties =>
      let required := s.required.getD []
      { name := model_name
      , fields := properties.map (fun p =>
          (p.1,
           { type := field_type_of p.2.type
           , description := p.2.description.getD ""
             -- `if field_name in required`: Field(description=...) vs
             -- Field(default=None, description=...)
           , binding := if p.1 ∈ required then FieldBinding.requiredNoDefault
                        else FieldBinding.defaultNone })) }

/-! ## Session acquisition (`initialize_mcp_client`)

The source enters `async with streamablehttp_client(...)` and
`async with ClientSession(...)`, awaits `session.initialize()`, and executes
`return session` while still inside both blocks.  In Python, returning out of
a with-block runs the context managers' exit handlers before control reaches
the caller, so the embedding tracks the session state observed by the caller
after those handlers have run. -/

/-- Observable state of a `ClientSession`: whether the protocol handshake has
completed and whether the scoped teardown (exit handlers of the with-blocks)
has already run. -/
structure ClientSessionState where
  initialized : Bool
  closed : Bool
deriving DecidableEq

/-- What `initialize_mcp_client` produces: the request headers it builds and
the state of the session object the caller receives. -/
structure InitializeMCPClientResult where
  headers : List (String × String)
  session : ClientSessionState
deriving DecidableEq

/-- Embedding of `initialize_mcp_client(server_url, auth_token)` from
`main.py` lines 28-50.  The bearer header is attached when the token is
non-empty (truthy).  `return session` on line 50 leaves both with-blocks, so
both exit handlers run — tearing the session down — before the value reaches
the caller. -/
def initialize_mcp_client (server_url : String) (auth_token : String) :
    InitializeMCPClientResult :=
  let headers :=
    if auth_token = "" then []
    else [("Authorization", "Bearer " ++ auth_token)]
  -- async with ClientSession(read, write) as session
  let session0 : ClientSessionState := { initialized := false, closed := false }
  -- await session.initialize()
  let session1 : ClientSessionState := { session0 with initialized := true }
  -- return session: exits both with-blocks, running their exit handlers
  let session2 : ClientSessionState := { session1 with closed := true }
  let _ := server_url
  { headers := headers, session := session2 }

/-! ## Tool adapter (`make_tool_func` / `tool_func`) -/

/-- Argument mapping passed as `**kwargs` and forwarded verbatim to
`session.call_tool`. -/
abbrev Args := List (String × Json)

/-- One content item of a `call_tool` result.  `type` is `none` when the
object has no `type` attribute (the `hasattr` check on line 124); `text` is
the `.text` attribute, read only on items of kind `"text"`; `dump` is the
value `model_dump()` returns. -/
structure ContentItem where
  type : Option String
  text : String
  dump : Json

/-- The result object of `session.call_tool`: its ordered `content` list. -/
structure CallToolResult where
  content : List ContentItem

/-- Behaviour of `session.call_tool` on this session: for a tool name and an
argument mapping, either a result or a raised exception's message
(`Except.error`). -/
abbrev CallOracle := String → Args → Except String CallToolResult

/-- Scan on lines 123-125 of `main.py`: the first content item having a
`type` attribute equal to `"text"`, if any. -/
def firstTextItem : List ContentItem → Option ContentItem
  | [] => none
  | c :: cs => if c.type = some "text" then some c else firstTextItem cs

/-- Embedding of the inner `async def tool_func(**kwargs)` built by
`make_tool_func(tool_name, tool_session)` (lines 116-131): forwards the
arguments to `call_tool`; on success returns the first text item's text, else
the indented-JSON dump of all content items, else the no-response sentinel;
on any raised error returns the `"Error executing tool: "` message.  The
function is total: it always returns a string, never propagates an error. -/
def tool_func (tool_session : CallOracle) (tool_name : String)
    (kwargs : Args) : String :=
  match tool_session tool_name kwargs with
  | Except.error e => "Error executing tool: " ++ e
  | Except.ok result =>
    -- `if result.content:` — empty list is falsy
    if result.content.isEmpty then
      "No response from tool"
    else
      match firstTextItem result.content with
      | some item => item.text
      | none => json_dumps_indent2 (result.content.map ContentItem.dump)

/-- `make_tool_func(tool_name, tool_session)` (lines 115-133): returns
`tool_func` with the name and session captured at call time. -/
def make_tool_func (tool_name : String) (tool_session : CallOracle) :
    Args → String :=
  tool_func tool_session tool_name

/-- Model of `asyncio.run(coro)` on the result of the coroutine: the model
runs the coroutine to completion and yields its value (event-loop re-entry
restrictions are outside this embedding). -/
def asyncio_run (result : String) : String :=
  result

/-! ## Catalog builder (`create_langchain_tools_from_mcp`) -/

/-- One tool descriptor of the remote listing (`tools_list.tools` entries):
name, description (`none` models a missing/None attribute) and `inputSchema`
(`none` models both a missing attribute, line 136's `hasattr` check, and a
falsy schema). -/
structure MCPTool where
  name : String
  description : Option String
  inputSchema : Option JsonSchema

/-- The LangChain `StructuredTool` constructed on lines 145-151: its name,
description, blocking entry point `func`, asynchronous entry point
`coroutine` (modelled by the string the awaited coroutine produces) and
argument schema. -/
structure StructuredTool where
  name : String
  description : String
  func : Args → String
  coroutine : Args → String
  args_schema : PydanticModel

/-- Session calls the catalog builder performs, in order (the per-tool
closures call `call_tool` only when later invoked, not during the build). -/
inductive SessionEvent where
  | listToolsCall
deriving DecidableEq

/-- Python `str.title()`: upper-cases a letter that does not follow a letter,
lower-cases a letter that does. -/
def pyTitle (s : String) : String :=
  String.mk (s.toList.foldl
    (fun (acc : List Char × Bool) c =>
      if c.isAlpha then
        (acc.1 ++ [if acc.2 then c.toLower else c.toUpper], true)
      else
        (acc.1 ++ [c], false))
    ([], false)).1

/-- `mcp_tool.name.replace('-', '_')` — single-character replacement. -/
def replaceDashUnderscore (s : String) : String :=
  String.mk (s.toList.map (fun c => if c = '-' then '_' else c))

/-- The value held by the loop variable `tool_func` (line 143) once the loop
has finished: the function made for the last descriptor.  Python lambdas
capture variables by reference, and every call of the `func` lambda happens
after `create_langchain_tools_from_mcp` has returned, so this is the value
the lambda reads.  For an empty listing no adapter exists, so the fallback is
never exposed. -/
def last_tool_func (session : CallOracle) (tools : List MCPTool) :
    Args → String :=
  match tools.getLast? with
  | some t => make_tool_func t.name session
  | none => fun _ => ""

/-- One iteration of the loop on lines 113-153: the `StructuredTool` built
for one descriptor.  `last_func` is the post-loop value of the loop variable
`tool_func` that the blocking lambda on line 148 reads at call time; the
`coroutine` argument on line 149 passes the current value, bound per
iteration through `make_tool_func`. -/
def build_structured_tool (session : CallOracle) (last_func : Args → String)
    (mcp_tool : MCPTool) : StructuredTool :=
  { name := mcp_tool.name
    -- `mcp_tool.description or f"MCP tool: ..."`: None and "" are falsy
  , description :=
      match mcp_tool.description with
      | some d => if d = "" then "MCP tool: " ++ mcp_tool.name else d
      | none => "MCP tool: " ++ mcp_tool.name
    -- func=lambda *args, **kwargs: asyncio.run(tool_func(**kwargs))
  , func := fun kwargs => asyncio_run (last_func kwargs)
    -- coroutine=tool_func where tool_func = make_tool_func(mcp_tool.name, session)
  , coroutine := make_tool_func mcp_tool.name session
  , args_schema := create_pydantic_model_from_schema mcp_tool.inputSchema
      (pyTitle (replaceDashUnderscore mcp_tool.name) ++ "Input") }

/-- Embedding of `create_langchain_tools_from_mcp(session)` (lines 96-155).
The session is split into its `call_tool` behaviour and the outcome of its
single `list_tools` call; the second component of the result logs the session
calls the builder performed.  A listing failure propagates; otherwise one
adapter is built per descriptor, in listing order. -/
def create_langchain_tools_from_mcp (session : CallOracle)
    (list_tools_result : Except String (List MCPTool)) :
    Except String (List StructuredTool) × List SessionEvent :=
  match list_tools_result with
  | Except.error e => (Except.error e, [SessionEvent.listToolsCall])
  | Except.ok tools =>
      (Except.ok (tools.map
        (build_structured_tool session (last_tool_func session tools))),
       [SessionEvent.listToolsCall])

/-! ## Concrete test fixtures used by counterexamples and witnesses -/

/-- A session whose every tool call succeeds with one text content item
naming the tool that was invoked. -/
def echoOracle : CallOracle := fun tool_name _ =>
  Except.ok { content :=
    [{ type := some "text", text := "result of " ++ tool_name
     , dump := Json.null }] }

/-- A two-descriptor remote listing. -/
def twoToolListing : List MCPTool :=
  [ { name := "tool-a", description := some "first tool", inputSchema := none }
  , { name := "tool-b", description := some "second tool", inputSchema := none } ]

/-- The catalog built from `twoToolListing` against `echoOracle`. -/
def builtTwoTools : List StructuredTool :=
  ((create_langchain_tools_from_mcp echoOracle
      (Except.ok twoToolListing)).1).toOption.getD []

/-- Properties of the spec's `search-bugs` scenario schema: a required string
and an optional integer. -/
def searchBugsProps : List (String × PropertyInfo) :=
  [ ("keyword", { type := some "string", description := some "Search keyword" })
  , ("limit", { type := some "integer", description := none }) ]

/-- The spec's `search-bugs` scenario input schema. -/
def searchBugsSchema : JsonSchema :=
  { properties := some searchBugsProps, required := some ["keyword"] }

/-- Content with a text item preceded and followed by other items. -/
def mixedContent : List ContentItem :=
  [ { type := some "image", text := ""
    , dump := Json.obj [("kind", Json.str "image")] }
  , { type := some "text", text := "3 bugs found", dump := Json.null }
  , { type := some "text", text := "a later text item", dump := Json.null } ]

/-- A session whose every call succeeds with `mixedContent`. -/
def mixedContentOracle : CallOracle := fun _ _ =>
  Except.ok { content := mixedContent }

/-- Content with items but none of kind "text". -/
def nonTextContent : List ContentItem :=
  [ { type := some "image", text := ""
    , dump := Json.obj [("kind", Json.str "image"), ("data", Json.str "abc")] }
  , { type := none, text := "", dump := Json.obj [("note", Json.num 7)] } ]

/-- A session whose every call succeeds with `nonTextContent`. -/
def nonTextOracle : CallOracle := fun _ _ =>
  Except.ok { content := nonTextContent }

/-- A session whose every call succeeds with zero content items. -/
def emptyContentOracle : CallOracle := fun _ _ =>
  Except.ok { content := [] }

/-! ## Theorems -/

/-- C1: the claim states that the session returned by `initialize_mcp_client`
has completed the initialization handshake and has NOT yet been torn down.
The code evaluated: the handshake has completed, but because `return session`
exits both with-blocks, the session the caller receives has already been torn
down — for every server URL and auth token. -/
theorem initialize_mcp_client_session_torn_down (server_url auth_token : String) :
    ((initialize_mcp_client server_url auth_token).session.initialized = true) ∧
    ((initialize_mcp_client server_url auth_token).session.closed = true) :=
  ⟨rfl, rfl⟩

/-- C3: if the underlying `call_tool` raises an error with message `e`, the
adapter's invocation returns (rather than throws) the string
`"Error executing tool: "` followed by `e`.  That `tool_func` is a total
function into `String` shows no exception passes the adapter boundary. -/
theorem tool_func_error_returns_message (tool_session : CallOracle)
    (tool_name : String) (kwargs : Args) (e : String)
    (h : tool_session tool_name kwargs = Except.error e) :
    tool_func tool_session tool_name kwargs = "Error executing tool: " ++ e := by
  unfold tool_func
  rw [h]

/-- Witness for C3: a session raising "timeout" makes the adapter return the
error string from the spec's scenario. -/
theorem tool_func_error_returns_message_witness :
    tool_func (fun _ _ => Except.error "timeout") "search-bugs" []
      = "Error executing tool: timeout" :=
  tool_func_error_returns_message (fun _ _ => Except.error "timeout")
    "search-bugs" [] "timeout" rfl

/-- C9: a schema that is absent/empty (`none`) or has no `properties` map
translates to the empty contract: a pydantic model with zero fields. -/
theorem empty_schema_empty_contract (model_name : String) (s : JsonSchema)
    (hs : s.properties = none) :
    ((create_pydantic_model_from_schema none model_name).fields = []) ∧
    ((create_pydantic_model_from_schema (some s) model_name).fields = []) := by
  refine ⟨rfl, ?_⟩
  obtain ⟨props, req⟩ := s
  have hp : props = none := hs
  subst hp
  rfl

/-- Witness for C9: a schema carrying only a `required` list and no
`properties` still yields a zero-field model, as does the absent schema. -/
theorem empty_schema_empty_contract_witness :
    ((create_pydantic_model_from_schema none "EmptyInput").fields = []) ∧
    ((create_pydantic_model_from_schema
        (some { properties := none, required := some ["keyword"] })
        "EmptyInput").fields = []) :=
  empty_schema_empty_contract "EmptyInput"
    { properties := none, required := some ["keyword"] } rfl

/-- C5: the schema translation is total over declared property types: every
declared property yields a field (one per property, in order), whose type
follows the mapping table — integer, number, boolean, array, object, and the
string fallback for any other or absent declaration. -/
theorem schema_type_mapping_total (s : JsonSchema)
    (props : List (String × PropertyInfo)) (model_name : String)
    (hp : s.properties = some props) (t : Option String)
    (ht : t ∉ [some "integer", some "number", some "boolean",
               some "array", some "object"]) :
    ((create_pydantic_model_from_schema (some s) model_name).fields.map
        (fun f => f.2.type) = props.map (fun p => field_type_of p.2.type)) ∧
    (field_type_of (some "integer") = FieldType.int) ∧
    (field_type_of (some "number") = FieldType.float) ∧
    (field_type_of (some "boolean") = FieldType.bool) ∧
    (field_type_of (some "array") = FieldType.listAny) ∧
    (field_type_of (some "object") = FieldType.dictAny) ∧
    (field_type_of none = FieldType.str) ∧
    (field_type_of t = FieldType.str) := by
  obtain ⟨sp, sr⟩ := s
  have hp' : sp = some props := hp
  subst hp'
  refine ⟨?_, rfl, rfl, rfl, rfl, rfl, rfl, ?_⟩
  · rw [show (create_pydantic_model_from_schema
        (some { properties := some props, required := sr }) model_name).fields
        = props.map (fun p =>
            (p.1,
             { type := field_type_of p.2.type
             , description := p.2.description.getD ""
             , binding := if p.1 ∈ sr.getD [] then FieldBinding.requiredNoDefault
                          else FieldBinding.defaultNone })) from rfl]
    rw [List.map_map]
    rfl
  · simp only [List.mem_cons, List.not_mem_nil, or_false, not_or] at ht
    obtain ⟨h1, h2, h3, h4, h5⟩ := ht
    simp [field_type_of, h1, h2, h3, h4, h5]

/-- Witness for C5: the scenario schema translates both of its properties,
and the unknown type "date" falls back to string. -/
theorem schema_type_mapping_total_witness :
    ((create_pydantic_model_from_schema (some searchBugsSchema)
        "SearchBugsInput").fields.map (fun f => f.2.type)
      = searchBugsProps.map (fun p => field_type_of p.2.type)) ∧
    (field_type_of (some "integer") = FieldType.int) ∧
    (field_type_of (some "number") = FieldType.float) ∧
    (field_type_of (some "boolean") = FieldType.bool) ∧
    (field_type_of (some "array") = FieldType.listAny) ∧
    (field_type_of (some "object") = FieldType.dictAny) ∧
    (field_type_of none = FieldType.str) ∧
    (field_type_of (some "date") = FieldType.str) :=
  schema_type_mapping_total searchBugsSchema searchBugsProps "SearchBugsInput"
    rfl (some "date") (by decide)

/-- C6: a field of the translated contract is required (created with no
default) exactly when its name is in the schema's `required` list; every
other field is optional, created with `default=None`. -/
theorem field_required_iff_in_required_list (s : JsonSchema)
    (props : List (String × PropertyInfo)) (model_name fname : String)
    (fd : FieldDef) (hp : s.properties = some props)
    (hmem : (fname, fd) ∈
      (create_pydantic_model_from_schema (some s) model_name).fields) :
    (fd.binding = FieldBinding.requiredNoDefault ↔
      fname ∈ s.required.getD []) ∧
    (fname ∉ s.required.getD [] → fd.binding = FieldBinding.defaultNone) := by
  obtain ⟨sp, sr⟩ := s
  have hp' : sp = some props := hp
  subst hp'
  rw [show (create_pydantic_model_from_schema
        (some { properties := some props, required := sr }) model_name).fields
      = props.map (fun p =>
          (p.1,
           { type := field_type_of p.2.type
           , description := p.2.description.getD ""
           , binding := if p.1 ∈ sr.getD [] then FieldBinding.requiredNoDefault
                        else FieldBinding.defaultNone })) from rfl] at hmem
  rw [List.mem_map] at hmem
  obtain ⟨p, hpm, heq⟩ := hmem
  cases heq
  by_cases hr : p.1 ∈ sr.getD [] <;> simp [hr]

/-- Witness for C6: in the scenario schema, the "keyword" field is required
(no default) and the "limit" field is optional with default None. -/
theorem field_required_iff_in_required_list_witness :
    ((({ type := FieldType.str, description := "Search keyword"
       , binding := FieldBinding.requiredNoDefault } : FieldDef).binding
        = FieldBinding.requiredNoDefault ↔
          "keyword" ∈ searchBugsSchema.required.getD []) ∧
     ("keyword" ∉ searchBugsSchema.required.getD [] →
       ({ type := FieldType.str, description := "Search keyword"
        , binding := FieldBinding.requiredNoDefault } : FieldDef).binding
         = FieldBinding.defaultNone)) ∧
    ((({ type := FieldType.int, description := ""
       , binding := FieldBinding.defaultNone } : FieldDef).binding
        = FieldBinding.requiredNoDefault ↔
          "limit" ∈ searchBugsSchema.required.getD []) ∧
     ("limit" ∉ searchBugsSchema.required.getD [] →
       ({ type := FieldType.int, description := ""
        , binding := FieldBinding.defaultNone } : FieldDef).binding
         = FieldBinding.defaultNone)) :=
  ⟨field_required_iff_in_required_list searchBugsSchema searchBugsProps
      "SearchBugsInput" "keyword" _ rfl (by decide),
   field_required_iff_in_required_list searchBugsSchema searchBugsProps
      "SearchBugsInput" "limit" _ rfl (by decide)⟩

/-- Helper: the scan finds the marked text item when everything before it is
not of kind "text". -/
theorem firstTextItem_of_split (pre post : List ContentItem)
    (item : ContentItem) (hitem : item.type = some "text")
    (hpre : ∀ c ∈ pre, c.type ≠ some "text") :
    firstTextItem (pre ++ item :: post) = some item := by
  induction pre with
  | nil => simp [firstTextItem, hitem]
  | cons c cs ih =>
    have hc : ¬ c.type = some "text" := hpre c (List.mem_cons_self c cs)
    simp only [List.cons_append, firstTextItem, if_neg hc]
    exact ih (fun x hx => hpre x (List.mem_cons_of_mem c hx))

/-- C7: when the call succeeds and the content holds a first item of kind
"text" (at any position, with any items around it), the adapter returns that
item's text verbatim. -/
theorem tool_func_returns_first_text (tool_session : CallOracle)
    (tool_name : String) (kwargs : Args) (res : CallToolResult)
    (pre post : List ContentItem) (item : ContentItem)
    (hcall : tool_session tool_name kwargs = Except.ok res)
    (hsplit : res.content = pre ++ item :: post)
    (hitem : item.type = some "text")
    (hpre : ∀ c ∈ pre, c.type ≠ some "text") :
    tool_func tool_session tool_name kwargs = item.text := by
  have hne : res.content.isEmpty = false := by
    rw [hsplit]; cases pre <;> rfl
  have hft : firstTextItem res.content = some item := by
    rw [hsplit]; exact firstTextItem_of_split pre post item hitem hpre
  simp only [tool_func, hcall, hne, hft, Bool.false_eq_true, if_false]

/-- Witness for C7: with a non-text item before it and a further text item
after it, the first text item's text "3 bugs found" is returned. -/
theorem tool_func_returns_first_text_witness :
    tool_func mixedContentOracle "search-bugs" [] = "3 bugs found" :=
  tool_func_returns_first_text mixedContentOracle "search-bugs" []
    { content := mixedContent }
    [{ type := some "image", text := ""
     , dump := Json.obj [("kind", Json.str "image")] }]
    [{ type := some "text", text := "a later text item", dump := Json.null }]
    { type := some "text", text := "3 bugs found", dump := Json.null }
    rfl rfl rfl (by decide)

/-- Helper: the scan finds nothing when no item is of kind "text". -/
theorem firstTextItem_eq_none (content : List ContentItem)
    (h : ∀ c ∈ content, c.type ≠ some "text") :
    firstTextItem content = none := by
  induction content with
  | nil => rfl
  | cons c cs ih =>
    have hc : ¬ c.type = some "text" := h c (List.mem_cons_self c cs)
    simp only [firstTextItem, if_neg hc]
    exact ih (fun x hx => h x (List.mem_cons_of_mem c hx))

/-- C8: when the call succeeds and no content item is of kind "text", the
adapter returns the indented-JSON serialization of the dumps of all content
items in their original order; with zero content items it returns the
sentinel "No response from tool". -/
theorem tool_func_no_text_fallback (tool_session : CallOracle)
    (tool_name : String) (kwargs : Args) (res : CallToolResult)
    (hcall : tool_session tool_name kwargs = Except.ok res)
    (hnotext : ∀ c ∈ res.content, c.type ≠ some "text") :
    tool_func tool_session tool_name kwargs =
      if res.content.isEmpty then "No response from tool"
      else json_dumps_indent2 (res.content.map ContentItem.dump) := by
  have hft := firstTextItem_eq_none res.content hnotext
  simp only [tool_func, hcall, hft]

/-- Witness for C8: two non-text items serialize to the indented JSON dump of
both items in order; zero items give the sentinel. -/
theorem tool_func_no_text_fallback_witness :
    (tool_func nonTextOracle "get-case" [] =
      json_dumps_indent2 (nonTextContent.map ContentItem.dump)) ∧
    (tool_func emptyContentOracle "get-case" [] = "No response from tool") :=
  ⟨tool_func_no_text_fallback nonTextOracle "get-case" []
      { content := nonTextContent } rfl (by decide),
   tool_func_no_text_fallback emptyContentOracle "get-case" []
      { content := [] } rfl (by decide)⟩

/-- C4: building a catalog from a successful listing of N descriptors yields
exactly N adapters with the same names in the same order, performing exactly
one `list_tools` session call; a listing failure is the only failure and is
propagated, again after exactly one `list_tools` call. -/
theorem create_tools_preserves_listing (session : CallOracle)
    (tools : List MCPTool) (e : String) :
    ((create_langchain_tools_from_mcp session (Except.ok tools)).1.map
        (fun lts => lts.map (fun t => t.name))
      = Except.ok (tools.map (fun t => t.name))) ∧
    ((create_langchain_tools_from_mcp session (Except.ok tools)).1.map
        (fun lts => lts.length) = Except.ok tools.length) ∧
    ((create_langchain_tools_from_mcp session (Except.ok tools)).2
      = [SessionEvent.listToolsCall]) ∧
    ((create_langchain_tools_from_mcp session (Except.error e)).1
      = Except.error e) ∧
    ((create_langchain_tools_from_mcp session (Except.error e)).2
      = [SessionEvent.listToolsCall]) := by
  refine ⟨?_, ?_, rfl, rfl, rfl⟩
  · show Except.ok ((tools.map (build_structured_tool session
        (last_tool_func session tools))).map (fun t => t.name)) = _
    rw [List.map_map]
    rfl
  · show Except.ok ((tools.map (build_structured_tool session
        (last_tool_func session tools))).length) = _
    rw [List.length_map]

/-- C2: the claim states that each adapter's blocking `func` and its
`coroutine` have identical semantics.  The code evaluated on a two-tool
catalog against a session that echoes the invoked tool's name: the first
adapter's coroutine invokes "tool-a" but its blocking func invokes "tool-b",
because the lambda on line 148 reads the loop variable `tool_func` after the
loop has finished; the two entry points return different strings for the
same arguments on the same session. -/
theorem blocking_func_and_coroutine_diverge :
    (builtTwoTools.map (fun t => t.name) = ["tool-a", "tool-b"]) ∧
    (builtTwoTools.map (fun t => t.coroutine [])
      = ["result of tool-a", "result of tool-b"]) ∧
    (builtTwoTools.map (fun t => t.func [])
      = ["result of tool-b", "result of tool-b"]) ∧
    ("result of tool-a" ≠ "result of tool-b") := by
  refine ⟨rfl, rfl, rfl, ?_⟩
  decide

/-- C10 counterexample: the adapter built from descriptor "tool-a" has a
blocking entry point whose call behaves as an invocation of "tool-b", the
last-listed descriptor's name — and on the echoing session that is
observably different from invoking "tool-a". -/
theorem blocking_entry_invokes_last_listed_name :
    (builtTwoTools.head?.map (fun t => (t.name, t.func []))
      = some ("tool-a", tool_func echoOracle "tool-b" [])) ∧
    (tool_func echoOracle "tool-b" [] ≠ tool_func echoOracle "tool-a" []) := by
  refine ⟨rfl, ?_⟩
  decide

/-- C10 amended: the asynchronous entry point (the coroutine produced by
`make_tool_func`, which binds name and session per iteration) of the i-th
adapter invokes exactly the i-th descriptor's name; the blocking entry point,
reading the loop variable late, invokes the last-listed descriptor's name. -/
theorem coroutine_invokes_own_descriptor_name (session : CallOracle)
    (tools : List MCPTool) (lts : List StructuredTool)
    (h : (create_langchain_tools_from_mcp session (Except.ok tools)).1
      = Except.ok lts)
    (i : Nat) (hi : i < lts.length) (hi' : i < tools.length) (kwargs : Args)
    (lastt : MCPTool) (hl : tools.getLast? = some lastt) :
    ((lts.get ⟨i, hi⟩).coroutine kwargs
      = tool_func session (tools.get ⟨i, hi'⟩).name kwargs) ∧
    ((lts.get ⟨i, hi⟩).func kwargs = tool_func session lastt.name kwargs) := by
  have h0 : (Except.ok (tools.map (build_structured_tool session
      (last_tool_func session tools)))
      : Except String (List StructuredTool)) = Except.ok lts := h
  have hlts : lts = tools.map (build_structured_tool session
      (last_tool_func session tools)) := (Except.ok.inj h0).symm
  subst hlts
  constructor
  · rw [List.get_eq_getElem, List.getElem_map]
    rfl
  · rw [List.get_eq_getElem, List.getElem_map]
    show asyncio_run (last_tool_func session tools kwargs) = _
    unfold last_tool_func
    rw [hl]
    rfl

/-- Witness for C10's amended statement, on the concrete two-tool catalog. -/
theorem coroutine_invokes_own_descriptor_name_witness :
    ((builtTwoTools.get ⟨0, by decide⟩).coroutine []
      = tool_func echoOracle (twoToolListing.get ⟨0, by decide⟩).name []) ∧
    ((builtTwoTools.get ⟨0, by decide⟩).func []
      = tool_func echoOracle
          ({ name := "tool-b", description := some "second tool"
           , inputSchema := none } : MCPTool).name []) :=
  coroutine_invokes_own_descriptor_name echoOracle twoToolListing
    builtTwoTools rfl 0 (by decide) (by decide) []
    { name := "tool-b", description := some "second tool", inputSchema := none }
    rfl

end CiscoMCP
